import Mathlib

/-!
Verification development for the centralized building-optimization MILP model
(`Building_Optimization_Problem.py`).  The constraint rules, parameter tables
and post-solve dispatch of `optimizeOneWeek` are shallowly embedded over the
rationals; pyomo decision variables become explicit assignment functions
`ℕ → ℚ` (indexed by timeslot), and variable domains (binary, non-negative,
box bounds) become explicit hypotheses.
-/

namespace BuildingOpt

/-- The `SetUpScenarios` configuration constants used by the embedded
constraint rules.  Each field mirrors the module-level constant of the same
name that `Building_Optimization_Problem.py` reads. -/
structure ScenarioParams where
  timeResolution_InMinutes : ℚ
  electricalPower_HP : ℚ
  initialBufferStorageTemperature : ℚ
  standingLossesBufferStorage : ℚ
  capacityOfBufferStorage : ℚ
  densityOfCement : ℚ
  specificHeatCapacityOfCement : ℚ
  initialUsableVolumeDHWTank : ℚ
  standingLossesDHWTank : ℚ
  temperatureOfTheHotWaterInTheDHWTank : ℚ
  densityOfWater : ℚ
  specificHeatCapacityOfWater : ℚ
  initialSOC_EV : ℚ
  capacityMaximal_EV : ℚ
  chargingEfficiency_EV : ℚ
  endSOC_EVAllowedDeviationFromInitalValue : ℚ
  initialSOC_BAT : ℚ
  capacityMaximal_BAT : ℚ
  chargingPowerMaximal_BAT : ℚ
  chargingEfficiency_BAT : ℚ
  dischargingEfficiency_BAT : ℚ
  endSOC_BATAllowedDeviationFromInitalValueLowerLimit : ℚ
  endSOC_BATAllowedDeviationFromInitalValueUpperLimit : ℚ
  minimalModulationdDegree_HP : ℚ
  revenueForFeedingBackElecticityIntoTheGrid_CentsPerkWh : ℚ
  deriving DecidableEq

/-- The `Run_Simulations` configuration flags and objective weights read by
`objectiveRule_combined_general`. -/
structure RunSimulationsConfig where
  optimization_1Objective : Bool
  optimization_2Objective : Bool
  optimization_3Objectives : Bool
  optimizationGoal_minimizeSurplusEnergy : Bool
  optimizationGoal_minimizePeakLoad : Bool
  optimizationGoal_minimizeCosts : Bool
  objective_minimizePeakLoad_weight : ℚ
  objective_minimizeCosts_weight : ℚ
  objective_minimizeSurplusEnergy_weight : ℚ
  objective_minimizePeakLoad_normalizationValue : ℚ
  objective_minimizeCosts_normalizationValue : ℚ
  objective_minimizeSurplusEnergy_normalizationValue : ℚ
  deriving DecidableEq

/-! ## Thermal storage dynamics (source lines 311-316 and 338-343) -/

/-- `temperatureBufferStorageConstraintRule_BT1`: energetic difference equation
for the buffer-storage temperature.  At the first timeslot the previous state
is replaced by `initialBufferStorageTemperature`. -/
def temperatureBufferStorageConstraintRule_BT1 (p : ScenarioParams)
    (coeffSpaceHeating copSpaceHeating heatDemand temp : ℕ → ℚ) (t : ℕ) : Prop :=
  if t = 1 then
    temp t = p.initialBufferStorageTemperature +
      ((coeffSpaceHeating t * copSpaceHeating t * p.electricalPower_HP * p.timeResolution_InMinutes * 60
          - heatDemand t * p.timeResolution_InMinutes * 60
          - p.standingLossesBufferStorage * p.timeResolution_InMinutes * 60) /
        (p.capacityOfBufferStorage * p.densityOfCement * p.specificHeatCapacityOfCement))
  else
    temp t = temp (t - 1) +
      ((coeffSpaceHeating t * copSpaceHeating t * p.electricalPower_HP * p.timeResolution_InMinutes * 60
          - heatDemand t * p.timeResolution_InMinutes * 60
          - p.standingLossesBufferStorage * p.timeResolution_InMinutes * 60) /
        (p.capacityOfBufferStorage * p.densityOfCement * p.specificHeatCapacityOfCement))

/-- `volumeDHWTankConstraintRule_BT1`: energetic difference equation for the
usable volume of the domestic-hot-water tank. -/
def volumeDHWTankConstraintRule_BT1 (p : ScenarioParams)
    (coeffDHW copDHW dhwDemand vol : ℕ → ℚ) (t : ℕ) : Prop :=
  if t = 1 then
    vol t = p.initialUsableVolumeDHWTank +
      ((coeffDHW t * copDHW t * p.electricalPower_HP * p.timeResolution_InMinutes * 60
          - dhwDemand t * p.timeResolution_InMinutes * 60
          - p.standingLossesDHWTank * p.timeResolution_InMinutes * 60) /
        (p.temperatureOfTheHotWaterInTheDHWTank * p.densityOfWater * p.specificHeatCapacityOfWater))
  else
    vol t = vol (t - 1) +
      ((coeffDHW t * copDHW t * p.electricalPower_HP * p.timeResolution_InMinutes * 60
          - dhwDemand t * p.timeResolution_InMinutes * 60
          - p.standingLossesDHWTank * p.timeResolution_InMinutes * 60) /
        (p.temperatureOfTheHotWaterInTheDHWTank * p.densityOfWater * p.specificHeatCapacityOfWater))

/-- Forward replay of a first-order difference equation: `trajectoryFrom init
delta 0 = init` and each later slot adds the slot's increment. -/
def trajectoryFrom (init : ℚ) (delta : ℕ → ℚ) : ℕ → ℚ
  | 0 => init
  | t + 1 => trajectoryFrom init delta t + delta (t + 1)

/-- Explicit storage-temperature trajectory obtained by replaying the
buffer-storage difference equation forward from the initial temperature. -/
def bufferStorageTemperatureTrajectory (p : ScenarioParams)
    (coeffSpaceHeating copSpaceHeating heatDemand : ℕ → ℚ) : ℕ → ℚ :=
  trajectoryFrom p.initialBufferStorageTemperature (fun t =>
    (coeffSpaceHeating t * copSpaceHeating t * p.electricalPower_HP * p.timeResolution_InMinutes * 60
        - heatDemand t * p.timeResolution_InMinutes * 60
        - p.standingLossesBufferStorage * p.timeResolution_InMinutes * 60) /
      (p.capacityOfBufferStorage * p.densityOfCement * p.specificHeatCapacityOfCement))

/-- Explicit DHW-tank volume trajectory obtained by replaying the tank
difference equation forward from the initial usable volume. -/
def dhwTankVolumeTrajectory (p : ScenarioParams)
    (coeffDHW copDHW dhwDemand : ℕ → ℚ) : ℕ → ℚ :=
  trajectoryFrom p.initialUsableVolumeDHWTank (fun t =>
    (coeffDHW t * copDHW t * p.electricalPower_HP * p.timeResolution_InMinutes * 60
        - dhwDemand t * p.timeResolution_InMinutes * 60
        - p.standingLossesDHWTank * p.timeResolution_InMinutes * 60) /
      (p.temperatureOfTheHotWaterInTheDHWTank * p.densityOfWater * p.specificHeatCapacityOfWater))

/-- A family of per-slot equality constraints of the shape used by all storage
difference equations in the source (previous state replaced by `init` at
`t = 1`) holds on `1..T` exactly when the state assignment agrees with the
forward-replayed trajectory on `1..T`. -/
theorem recurrence_iff_trajectory (init : ℚ) (delta f : ℕ → ℚ) (T : ℕ) :
    (∀ t ∈ Finset.Icc 1 T,
        (if t = 1 then f t = init + delta t else f t = f (t - 1) + delta t)) ↔
      (∀ t ∈ Finset.Icc 1 T, f t = trajectoryFrom init delta t) := by
  constructor
  · intro h t ht
    rw [Finset.mem_Icc] at ht
    induction t with
    | zero => omega
    | succ k ih =>
      rcases Nat.eq_zero_or_pos k with hk | hk
      · subst hk
        have h1 := h 1 (Finset.mem_Icc.mpr (by omega))
        simpa [trajectoryFrom] using h1
      · have hmem : k + 1 ∈ Finset.Icc 1 T := Finset.mem_Icc.mpr (by omega)
        have hstep := h (k + 1) hmem
        have hk1 : ¬ (k + 1 = 1) := by omega
        rw [if_neg hk1] at hstep
        have hfk : f k = trajectoryFrom init delta k := ih (by omega)
        simp only [Nat.add_sub_cancel] at hstep
        rw [hstep, hfk]
        rfl
  · intro h t ht
    rw [Finset.mem_Icc] at ht
    by_cases h1 : t = 1
    · subst h1
      rw [if_pos rfl]
      have := h 1 (Finset.mem_Icc.mpr (by omega))
      simpa [trajectoryFrom] using this
    · rw [if_neg h1]
      obtain ⟨k, rfl⟩ : ∃ k, t = k + 1 := ⟨t - 1, by omega⟩
      have hft := h (k + 1) (Finset.mem_Icc.mpr (by omega))
      have hfk := h k (Finset.mem_Icc.mpr (by omega))
      simp only [Nat.add_sub_cancel]
      rw [hft, hfk]
      rfl

/-! ## Heat-pump exclusivity constraints (source lines 362-369 and 777-786) -/

/-- `onlyOneStorageRule_1_BT1`: the space-heating modulation coefficient of a
BT1 building is bounded by the per-slot storage-selection binary. -/
def onlyOneStorageRule_1_BT1 (coeffSpaceHeating helpOnlyOneStorage : ℚ) : Prop :=
  coeffSpaceHeating ≤ helpOnlyOneStorage

/-- `onlyOneStorageRule_2_BT1`: the DHW modulation coefficient of a BT1
building is bounded by the complement of the storage-selection binary. -/
def onlyOneStorageRule_2_BT1 (coeffDHW helpOnlyOneStorage : ℚ) : Prop :=
  coeffDHW ≤ 1 - helpOnlyOneStorage

/-- `onlyOneStorageRule_1_BT2`: BT2 version of the space-heating exclusivity
inequality. -/
def onlyOneStorageRule_1_BT2 (coeffSpaceHeating helpOnlyOneStorage : ℚ) : Prop :=
  coeffSpaceHeating ≤ helpOnlyOneStorage

/-- `onlyOneStorageRule_2_BT2`: BT2 version of the DHW exclusivity
inequality. -/
def onlyOneStorageRule_2_BT2 (coeffDHW helpOnlyOneStorage : ℚ) : Prop :=
  coeffDHW ≤ 1 - helpOnlyOneStorage

/-! ## Portfolio surplus split (source lines 1628-1645) -/

/-- `surplusPowerPartsRule`: the signed surplus power is the difference of its
non-negative positive and negative parts. -/
def surplusPowerPartsRule (surplusPowerTotal surplusPowerPositivePart surplusPowerNegativePart : ℚ) :
    Prop :=
  surplusPowerTotal = surplusPowerPositivePart - surplusPowerNegativePart

/-- `surplusPowerPositiveRule`: big-M restriction of the positive part by the
sign-indicator binary. -/
def surplusPowerPositiveRule (surplusPowerPositivePart isSurplusPowerPositive bigMSurplusPositive : ℚ) :
    Prop :=
  surplusPowerPositivePart ≤ isSurplusPowerPositive * bigMSurplusPositive

/-- `surplusPowerNegativeRule`: big-M restriction of the negative part by the
complement of the sign-indicator binary. -/
def surplusPowerNegativeRule (surplusPowerNegativePart isSurplusPowerPositive bigMSurplusNegative : ℚ) :
    Prop :=
  surplusPowerNegativePart ≤ (1 - isSurplusPowerPositive) * bigMSurplusNegative

/-- Exactly one of two quantities is non-zero. -/
def exactlyOneNonZero (a b : ℚ) : Prop :=
  (a ≠ 0 ∧ b = 0) ∨ (a = 0 ∧ b ≠ 0)

/-! ## Per-slot cost and revenue (source lines 1650-1660) -/

/-- `costsPerTimeSlotRule`: cost accrues on the deficit branch, gated by the
complement of the surplus sign indicator. -/
def costsPerTimeSlotRule (p : ScenarioParams)
    (electricityPrice electricalPowerTotal pvGenerationTotal isSurplusPowerPositive costs : ℚ) :
    Prop :=
  costs = (1 - isSurplusPowerPositive) * (electricalPowerTotal - pvGenerationTotal) *
      p.timeResolution_InMinutes * 60 * (electricityPrice / 3600000)

/-- `revenuePerTimeSlotRule`: revenue accrues on the surplus branch, gated by
the surplus sign indicator, at the feed-in tariff. -/
def revenuePerTimeSlotRule (p : ScenarioParams)
    (electricalPowerTotal pvGenerationTotal isSurplusPowerPositive revenue : ℚ) : Prop :=
  revenue = isSurplusPowerPositive * (pvGenerationTotal - electricalPowerTotal) *
      p.timeResolution_InMinutes * 60 *
      (p.revenueForFeedingBackElecticityIntoTheGrid_CentsPerkWh / 3600000)

/-! ## Terminal-value bands (source lines 394-402 and 1469-1477) -/

/-- `constraint_energyLevelOfEV_lastLowerLimitRule_BT1`: lower bound on the EV
energy level in the final timeslot.  The source uses the single deviation
constant `endSOC_EVAllowedDeviationFromInitalValue` on both sides. -/
def constraint_energyLevelOfEV_lastLowerLimitRule_BT1 (p : ScenarioParams)
    (lastEnergyLevelEV : ℚ) : Prop :=
  lastEnergyLevelEV ≥
    ((p.initialSOC_EV - p.endSOC_EVAllowedDeviationFromInitalValue) / 100) * p.capacityMaximal_EV

/-- `constraint_energyLevelOfEV_lastUpperLimitRule_BT1`: upper bound on the EV
energy level in the final timeslot. -/
def constraint_energyLevelOfEV_lastUpperLimitRule_BT1 (p : ScenarioParams)
    (lastEnergyLevelEV : ℚ) : Prop :=
  lastEnergyLevelEV ≤
    ((p.initialSOC_EV + p.endSOC_EVAllowedDeviationFromInitalValue) / 100) * p.capacityMaximal_EV

/-- `constraint_energyLevelOfBAT_lastLowerLimitRule_BT5`: lower bound on the
battery energy level in the final timeslot, using the dedicated lower-limit
deviation constant. -/
def constraint_energyLevelOfBAT_lastLowerLimitRule_BT5 (p : ScenarioParams)
    (lastEnergyLevelBAT : ℚ) : Prop :=
  lastEnergyLevelBAT ≥
    ((p.initialSOC_BAT - p.endSOC_BATAllowedDeviationFromInitalValueLowerLimit) / 100) *
      p.capacityMaximal_BAT

/-- `constraint_energyLevelOfBAT_lastUpperLimitRule_BT5`: upper bound on the
battery energy level in the final timeslot, using the dedicated upper-limit
deviation constant. -/
def constraint_energyLevelOfBAT_lastUpperLimitRule_BT5 (p : ScenarioParams)
    (lastEnergyLevelBAT : ℚ) : Prop :=
  lastEnergyLevelBAT ≤
    ((p.initialSOC_BAT + p.endSOC_BATAllowedDeviationFromInitalValueUpperLimit) / 100) *
      p.capacityMaximal_BAT

/-- Initial EV energy level implied by the initial state of charge. -/
def evInitialEnergyLevel (p : ScenarioParams) : ℚ :=
  (p.initialSOC_EV / 100) * p.capacityMaximal_EV

/-- Distance from the initial EV energy level down to the terminal lower
bound enforced by `constraint_energyLevelOfEV_lastLowerLimitRule_BT1`. -/
def evTerminalLowerDeviation (p : ScenarioParams) : ℚ :=
  evInitialEnergyLevel p -
    ((p.initialSOC_EV - p.endSOC_EVAllowedDeviationFromInitalValue) / 100) * p.capacityMaximal_EV

/-- Distance from the initial EV energy level up to the terminal upper bound
enforced by `constraint_energyLevelOfEV_lastUpperLimitRule_BT1`. -/
def evTerminalUpperDeviation (p : ScenarioParams) : ℚ :=
  ((p.initialSOC_EV + p.endSOC_EVAllowedDeviationFromInitalValue) / 100) * p.capacityMaximal_EV -
    evInitialEnergyLevel p

/-- Initial battery energy level implied by the initial state of charge. -/
def batInitialEnergyLevel (p : ScenarioParams) : ℚ :=
  (p.initialSOC_BAT / 100) * p.capacityMaximal_BAT

/-- Distance from the initial battery energy level down to the terminal lower
bound enforced by `constraint_energyLevelOfBAT_lastLowerLimitRule_BT5`. -/
def batTerminalLowerDeviation (p : ScenarioParams) : ℚ :=
  batInitialEnergyLevel p -
    ((p.initialSOC_BAT - p.endSOC_BATAllowedDeviationFromInitalValueLowerLimit) / 100) *
      p.capacityMaximal_BAT

/-- Distance from the initial battery energy level up to the terminal upper
bound enforced by `constraint_energyLevelOfBAT_lastUpperLimitRule_BT5`. -/
def batTerminalUpperDeviation (p : ScenarioParams) : ℚ :=
  ((p.initialSOC_BAT + p.endSOC_BATAllowedDeviationFromInitalValueUpperLimit) / 100) *
      p.capacityMaximal_BAT -
    batInitialEnergyLevel p

/-! ## Battery state-of-charge dynamics (source lines 1460-1465) -/

/-- `energyLevelOfBATRule_BT5`: battery energy-level difference equation as
written in the source.  Note that the first-timeslot branch divides the
discharging power by `chargingEfficiency_BAT`, while the general branch
divides it by `dischargingEfficiency_BAT`. -/
def energyLevelOfBATRule_BT5 (p : ScenarioParams)
    (chargingPowerBAT dischargingPowerBAT energyLevelBAT : ℕ → ℚ) (t : ℕ) : Prop :=
  if t = 1 then
    energyLevelBAT t = (p.initialSOC_BAT / 100) * p.capacityMaximal_BAT +
      ((chargingPowerBAT t * p.chargingEfficiency_BAT -
          dischargingPowerBAT t * (1 / p.chargingEfficiency_BAT)) *
        p.timeResolution_InMinutes * 60)
  else
    energyLevelBAT t = energyLevelBAT (t - 1) +
      ((chargingPowerBAT t * p.chargingEfficiency_BAT -
          dischargingPowerBAT t * (1 / p.dischargingEfficiency_BAT)) *
        p.timeResolution_InMinutes * 60)

/-- Battery energy-level difference equation as the specification states it:
the discharging power is divided by the discharging efficiency in every
timeslot, including the first one.  Used only to compare the source rule
against the specified behaviour. -/
def energyLevelOfBATRule_BT5_specEfficiency (p : ScenarioParams)
    (chargingPowerBAT dischargingPowerBAT energyLevelBAT : ℕ → ℚ) (t : ℕ) : Prop :=
  if t = 1 then
    energyLevelBAT t = (p.initialSOC_BAT / 100) * p.capacityMaximal_BAT +
      ((chargingPowerBAT t * p.chargingEfficiency_BAT -
          dischargingPowerBAT t * (1 / p.dischargingEfficiency_BAT)) *
        p.timeResolution_InMinutes * 60)
  else
    energyLevelBAT t = energyLevelBAT (t - 1) +
      ((chargingPowerBAT t * p.chargingEfficiency_BAT -
          dischargingPowerBAT t * (1 / p.dischargingEfficiency_BAT)) *
        p.timeResolution_InMinutes * 60)

/-! ## Combined objective (source lines 1697-1727) -/

/-- `objectiveRule_combined_general`: the combined objective scalar, mirroring
the sequential flag dispatch of the source.  Python falls through to the next
mode block when no goal combination matches inside a block, and returns
nothing when no branch fires, hence the `Option` result.  In the
peak-load/cost pair and in the triple mode the source divides the cost term by
`objective_minimizeSurplusEnergy_normalizationValue`. -/
def objectiveRule_combined_general (rs : RunSimulationsConfig) (p : ScenarioParams)
    (objectiveMaximumLoad objectiveSurplusEnergy objectiveCosts : ℚ) : Option ℚ :=
  if rs.optimization_1Objective && rs.optimizationGoal_minimizeSurplusEnergy then
    some ((objectiveSurplusEnergy * p.timeResolution_InMinutes * 60) / 3600)
  else if rs.optimization_1Objective && rs.optimizationGoal_minimizePeakLoad then
    some objectiveMaximumLoad
  else if rs.optimization_1Objective && rs.optimizationGoal_minimizeCosts then
    some objectiveCosts
  else if rs.optimization_2Objective && rs.optimizationGoal_minimizeSurplusEnergy &&
      rs.optimizationGoal_minimizePeakLoad then
    some (rs.objective_minimizePeakLoad_weight *
        (objectiveMaximumLoad / rs.objective_minimizePeakLoad_normalizationValue) +
      rs.objective_minimizeSurplusEnergy_weight *
        (((objectiveSurplusEnergy * p.timeResolution_InMinutes * 60) / 3600) /
          rs.objective_minimizeSurplusEnergy_normalizationValue))
  else if rs.optimization_2Objective && rs.optimizationGoal_minimizeSurplusEnergy &&
      rs.optimizationGoal_minimizeCosts then
    some (rs.objective_minimizeCosts_weight *
        (objectiveCosts / rs.objective_minimizeCosts_normalizationValue) +
      rs.objective_minimizeSurplusEnergy_weight *
        (((objectiveSurplusEnergy * p.timeResolution_InMinutes * 60) / 3600) /
          rs.objective_minimizeSurplusEnergy_normalizationValue))
  else if rs.optimization_2Objective && rs.optimizationGoal_minimizePeakLoad &&
      rs.optimizationGoal_minimizeCosts then
    some (rs.objective_minimizePeakLoad_weight *
        (objectiveMaximumLoad / rs.objective_minimizePeakLoad_normalizationValue) +
      rs.objective_minimizeCosts_weight *
        (objectiveCosts / rs.objective_minimizeSurplusEnergy_normalizationValue))
  else if rs.optimization_3Objectives then
    some (rs.objective_minimizePeakLoad_weight *
        (objectiveMaximumLoad / rs.objective_minimizePeakLoad_normalizationValue) +
      rs.objective_minimizeCosts_weight *
        (objectiveCosts / rs.objective_minimizeSurplusEnergy_normalizationValue) +
      rs.objective_minimizeSurplusEnergy_weight *
        (((objectiveSurplusEnergy * p.timeResolution_InMinutes * 60) / 3600) /
          rs.objective_minimizeSurplusEnergy_normalizationValue))
  else
    none

/-- Combined objective scalar as the specification states it: every raw term
is divided by its own normalization constant, in particular the cost term by
`objective_minimizeCosts_normalizationValue`.  Used only to compare the source
rule against the specified behaviour. -/
def objectiveRule_combined_specNormalization (rs : RunSimulationsConfig) (p : ScenarioParams)
    (objectiveMaximumLoad objectiveSurplusEnergy objectiveCosts : ℚ) : Option ℚ :=
  if rs.optimization_1Objective && rs.optimizationGoal_minimizeSurplusEnergy then
    some ((objectiveSurplusEnergy * p.timeResolution_InMinutes * 60) / 3600)
  else if rs.optimization_1Objective && rs.optimizationGoal_minimizePeakLoad then
    some objectiveMaximumLoad
  else if rs.optimization_1Objective && rs.optimizationGoal_minimizeCosts then
    some objectiveCosts
  else if rs.optimization_2Objective && rs.optimizationGoal_minimizeSurplusEnergy &&
      rs.optimizationGoal_minimizePeakLoad then
    some (rs.objective_minimizePeakLoad_weight *
        (objectiveMaximumLoad / rs.objective_minimizePeakLoad_normalizationValue) +
      rs.objective_minimizeSurplusEnergy_weight *
        (((objectiveSurplusEnergy * p.timeResolution_InMinutes * 60) / 3600) /
          rs.objective_minimizeSurplusEnergy_normalizationValue))
  else if rs.optimization_2Objective && rs.optimizationGoal_minimizeSurplusEnergy &&
      rs.optimizationGoal_minimizeCosts then
    some (rs.objective_minimizeCosts_weight *
        (objectiveCosts / rs.objective_minimizeCosts_normalizationValue) +
      rs.objective_minimizeSurplusEnergy_weight *
        (((objectiveSurplusEnergy * p.timeResolution_InMinutes * 60) / 3600) /
          rs.objective_minimizeSurplusEnergy_normalizationValue))
  else if rs.optimization_2Objective && rs.optimizationGoal_minimizePeakLoad &&
      rs.optimizationGoal_minimizeCosts then
    some (rs.objective_minimizePeakLoad_weight *
        (objectiveMaximumLoad / rs.objective_minimizePeakLoad_normalizationValue) +
      rs.objective_minimizeCosts_weight *
        (objectiveCosts / rs.objective_minimizeCosts_normalizationValue))
  else if rs.optimization_3Objectives then
    some (rs.objective_minimizePeakLoad_weight *
        (objectiveMaximumLoad / rs.objective_minimizePeakLoad_normalizationValue) +
      rs.objective_minimizeCosts_weight *
        (objectiveCosts / rs.objective_minimizeCosts_normalizationValue) +
      rs.objective_minimizeSurplusEnergy_weight *
        (((objectiveSurplusEnergy * p.timeResolution_InMinutes * 60) / 3600) /
          rs.objective_minimizeSurplusEnergy_normalizationValue))
  else
    none

/-! ## Heat-pump start-count encoding (source lines 453-512)

`switchedOff t` embeds `variable_HPswitchedOff_Individual_SpaceHeating_BT1`
and `associated t` embeds
`variable_HPswitchedOff_HelpAssociatedBinary_SpaceHeating_BT1` for one
building; the `consider` flag embeds
`Run_Simulations.considerMaxiumNumberOfStartsHP_Individual` (rules are skipped
when it is off). -/

/-- `maximumNumberOfStarts_Individual_SpaceHeating_EQ1_Rule_BT1`: the counted
binary is zero in the first slot and bounded by the previous slot's
running-indicator binary afterwards. -/
def maximumNumberOfStarts_Individual_SpaceHeating_EQ1_Rule_BT1 (consider : Bool)
    (switchedOff associated : ℕ → ℚ) (t : ℕ) : Prop :=
  if consider then
    if t = 1 then switchedOff t = 0 else switchedOff t ≤ associated (t - 1)
  else
    True

/-- `maximumNumberOfStarts_Individual_SpaceHeating_EQ2_Rule_BT1`: the counted
binary and the current running-indicator binary cannot both be one. -/
def maximumNumberOfStarts_Individual_SpaceHeating_EQ2_Rule_BT1 (consider : Bool)
    (switchedOff associated : ℕ → ℚ) (t : ℕ) : Prop :=
  if consider then associated t + switchedOff t ≤ 1 else True

/-- `maximumNumberOfStarts_Individual_SpaceHeating_EQ2_2_Rule_BT1`: the
previous slot's running indicator is bounded by the current indicator plus the
counted binary (first slot: the counted binary is zero). -/
def maximumNumberOfStarts_Individual_SpaceHeating_EQ2_2_Rule_BT1 (consider : Bool)
    (switchedOff associated : ℕ → ℚ) (t : ℕ) : Prop :=
  if consider then
    if t = 1 then switchedOff t = 0
    else associated (t - 1) ≤ associated t + switchedOff t
  else
    True

/-- Sum of the counted binary over the whole horizon `1..T`. -/
def sumSwitchedOff (switchedOff : ℕ → ℚ) (T : ℕ) : ℚ :=
  ∑ t ∈ Finset.Icc 1 T, switchedOff t

/-- `maximumNumberOfStarts_Individual_SpaceHeating_EQ5_NumberOfStarts_Rule_BT1`:
the counted binaries over the week sum to at most the configured maximum. -/
def maximumNumberOfStarts_Individual_SpaceHeating_EQ5_NumberOfStarts_Rule_BT1 (consider : Bool)
    (switchedOff : ℕ → ℚ) (T : ℕ) (maximumNumberOfStarts_Individual : ℚ) : Prop :=
  if consider then sumSwitchedOff switchedOff T ≤ maximumNumberOfStarts_Individual else True

/-- Number of slots in `2..T` where the running indicator changes value
relative to the previous slot (the claim's count of on/off transitions). -/
def numberOfOnOffTransitions (associated : ℕ → ℚ) (T : ℕ) : ℕ :=
  ((Finset.Icc 2 T).filter (fun t => associated t ≠ associated (t - 1))).card

/-- Number of slots in `2..T` where the running indicator switches from on to
off (1 at `t - 1`, 0 at `t`). -/
def numberOfSwitchOffTransitions (associated : ℕ → ℚ) (T : ℕ) : ℕ :=
  ((Finset.Icc 2 T).filter (fun t => associated (t - 1) = 1 ∧ associated t = 0)).card

/-! ## Input-series preparation (source lines 89-94 and 163-174)

The source attaches a 1-based `Timeslot` index column of length
`numberOfTimeSlotsPerWeek` to every resampled per-building dataframe
(`df['Timeslot'] = arrayTimeSlots`).  The pandas assignment raises a generic
length-mismatch `ValueError` when the series does not have exactly that
length, and a column access such as `df['Availability of the EV']` (line 166)
raises a `KeyError` carrying only the column name when the column is missing;
the source adds no handler around either, so both errors propagate unchanged
and without any information about which building failed. -/

/-- Attach the 1-based timeslot index to one series, mirroring the pandas
column assignment and its generic failure message. -/
def setTimeslotIndex (numberOfTimeSlotsPerWeek : ℕ) (series : List ℚ) :
    Except String (List (ℕ × ℚ)) :=
  if series.length = numberOfTimeSlotsPerWeek then
    Except.ok ((List.range' 1 numberOfTimeSlotsPerWeek).zip series)
  else
    Except.error "Length of values does not match length of index"

/-- Look up a named column of a per-building dataframe, mirroring the pandas
access `df[name]`: a missing column raises a `KeyError` whose payload is just
the key, i.e. the column name, with no building identification. -/
def getColumn (df : List (String × List ℚ)) (name : String) : Except String (List ℚ) :=
  match df.find? (fun c => c.fst == name) with
  | some c => Except.ok c.snd
  | none => Except.error name

/-- Process the per-building series list in order, propagating the first
pandas error unchanged, as the source's per-building loop does. -/
def prepareBuildingSeries (numberOfTimeSlotsPerWeek : ℕ) :
    List (List ℚ) → Except String (List (List (ℕ × ℚ)))
  | [] => Except.ok []
  | series :: rest =>
    match setTimeslotIndex numberOfTimeSlotsPerWeek series with
    | Except.error e => Except.error e
    | Except.ok indexed =>
      match prepareBuildingSeries numberOfTimeSlotsPerWeek rest with
      | Except.error e => Except.error e
      | Except.ok indexedRest => Except.ok (indexed :: indexedRest)

/-! ## Post-solve dispatch of `optimizeOneWeek` (source lines 1744, 1928-1990) -/

/-- Solver status reported by the adapter. -/
inductive SolverStatus where
  | ok
  | warning
  | aborted
  | failed
  | unknown
  deriving DecidableEq

/-- Termination condition reported by the adapter. -/
inductive TerminationCondition where
  | optimal
  | maxTimeLimit
  | infeasible
  | unbounded
  | unknown
  deriving DecidableEq

/-- Success test of source line 1744: results are extracted only when the
solver status is `ok` with an `optimal` termination condition, or when the
time limit was reached with an incumbent. -/
def solveWasAccepted (st : SolverStatus) (tc : TerminationCondition) : Bool :=
  (st == SolverStatus.ok && tc == TerminationCondition.optimal) ||
    tc == TerminationCondition.maxTimeLimit

/-- The nine output vectors returned by `optimizeOneWeek`, per building and
timeslot. -/
structure OutputVectors where
  heatGenerationCoefficientSpaceHeating_BT1 : List (List ℚ)
  heatGenerationCoefficientDHW_BT1 : List (List ℚ)
  chargingPowerEV_BT1 : List (List ℚ)
  heatGenerationCoefficientSpaceHeating_BT2 : List (List ℚ)
  heatGenerationCoefficientDHW_BT2 : List (List ℚ)
  chargingPowerEV_BT3 : List (List ℚ)
  heatGenerationCoefficientSpaceHeating_BT4 : List (List ℚ)
  chargingPowerBAT_BT5 : List (List ℚ)
  dischargingPowerBAT_BT5 : List (List ℚ)
  deriving DecidableEq

/-- The all-empty output bundle produced by the fallback assignments of source
lines 1942-1986 (`np.zeros(0)` for every vector never assigned). -/
def emptyOutputVectors : OutputVectors :=
  { heatGenerationCoefficientSpaceHeating_BT1 := []
    heatGenerationCoefficientDHW_BT1 := []
    chargingPowerEV_BT1 := []
    heatGenerationCoefficientSpaceHeating_BT2 := []
    heatGenerationCoefficientDHW_BT2 := []
    chargingPowerEV_BT3 := []
    heatGenerationCoefficientSpaceHeating_BT4 := []
    chargingPowerBAT_BT5 := []
    dischargingPowerBAT_BT5 := [] }

/-- Output vectors returned by `optimizeOneWeek`: inside the accepted branch
each building type's vectors are extracted only when that type has at least
one building; every vector not assigned in that branch falls back to the empty
array. -/
def optimizeOneWeekReturnedVectors (st : SolverStatus) (tc : TerminationCondition)
    (nBT1 nBT2 nBT3 nBT4 nBT5 : ℕ) (solved : OutputVectors) : OutputVectors :=
  if solveWasAccepted st tc then
    { heatGenerationCoefficientSpaceHeating_BT1 :=
        if 1 ≤ nBT1 then solved.heatGenerationCoefficientSpaceHeating_BT1 else []
      heatGenerationCoefficientDHW_BT1 :=
        if 1 ≤ nBT1 then solved.heatGenerationCoefficientDHW_BT1 else []
      chargingPowerEV_BT1 := if 1 ≤ nBT1 then solved.chargingPowerEV_BT1 else []
      heatGenerationCoefficientSpaceHeating_BT2 :=
        if 1 ≤ nBT2 then solved.heatGenerationCoefficientSpaceHeating_BT2 else []
      heatGenerationCoefficientDHW_BT2 :=
        if 1 ≤ nBT2 then solved.heatGenerationCoefficientDHW_BT2 else []
      chargingPowerEV_BT3 := if 1 ≤ nBT3 then solved.chargingPowerEV_BT3 else []
      heatGenerationCoefficientSpaceHeating_BT4 :=
        if 1 ≤ nBT4 then solved.heatGenerationCoefficientSpaceHeating_BT4 else []
      chargingPowerBAT_BT5 := if 1 ≤ nBT5 then solved.chargingPowerBAT_BT5 else []
      dischargingPowerBAT_BT5 := if 1 ≤ nBT5 then solved.dischargingPowerBAT_BT5 else [] }
  else
    emptyOutputVectors

/-- Per-building result records (the `BTx_Building_i.csv` files): written only
inside the accepted branch of the post-solve dispatch. -/
def perBuildingResultRecords (st : SolverStatus) (tc : TerminationCondition)
    (records : List (List ℚ)) : List (List ℚ) :=
  if solveWasAccepted st tc then records else []

/-! ## Concrete scenario used for witnesses and counterexamples -/

/-- A concrete, fully specified scenario-parameter record used to evaluate
the embedded rules on explicit inputs. -/
def exParams : ScenarioParams :=
  { timeResolution_InMinutes := 1
    electricalPower_HP := 3000
    initialBufferStorageTemperature := 35
    standingLossesBufferStorage := 100
    capacityOfBufferStorage := 500
    densityOfCement := 2000
    specificHeatCapacityOfCement := 1
    initialUsableVolumeDHWTank := 150
    standingLossesDHWTank := 50
    temperatureOfTheHotWaterInTheDHWTank := 60
    densityOfWater := 1
    specificHeatCapacityOfWater := 4
    initialSOC_EV := 50
    capacityMaximal_EV := 3600
    chargingEfficiency_EV := 90
    endSOC_EVAllowedDeviationFromInitalValue := 10
    initialSOC_BAT := 50
    capacityMaximal_BAT := 7200
    chargingPowerMaximal_BAT := 4500
    chargingEfficiency_BAT := 1 / 2
    dischargingEfficiency_BAT := 4 / 5
    endSOC_BATAllowedDeviationFromInitalValueLowerLimit := 10
    endSOC_BATAllowedDeviationFromInitalValueUpperLimit := 20
    minimalModulationdDegree_HP := 20
    revenueForFeedingBackElecticityIntoTheGrid_CentsPerkWh := 8 }

/-! ## C5: thermal storage difference equations -/

/-- C5: for every building with thermal storage and horizon `1..T`, the
buffer-storage temperature and DHW-tank volume constraint families hold
exactly when the state assignments equal the forward replay of the energetic
difference equation `state[t] = state[t-1] + (modulation·COP·ratedPower·Δ·60 −
demand·Δ·60 − standingLoss·Δ·60)/thermalMass`, with `state[0]` the fixed
initial-value constant (so at `t = 1` the previous state is replaced by it). -/
theorem thermalStorage_differenceEquation_trajectory (p : ScenarioParams)
    (coeffSpaceHeating copSpaceHeating heatDemand temp : ℕ → ℚ)
    (coeffDHW copDHW dhwDemand vol : ℕ → ℚ) (T : ℕ) :
    ((∀ t ∈ Finset.Icc 1 T,
        temperatureBufferStorageConstraintRule_BT1 p coeffSpaceHeating copSpaceHeating heatDemand
          temp t) ↔
      ∀ t ∈ Finset.Icc 1 T,
        temp t = bufferStorageTemperatureTrajectory p coeffSpaceHeating copSpaceHeating heatDemand
          t) ∧
    ((∀ t ∈ Finset.Icc 1 T,
        volumeDHWTankConstraintRule_BT1 p coeffDHW copDHW dhwDemand vol t) ↔
      ∀ t ∈ Finset.Icc 1 T, vol t = dhwTankVolumeTrajectory p coeffDHW copDHW dhwDemand t) :=
  ⟨recurrence_iff_trajectory _ _ _ _, recurrence_iff_trajectory _ _ _ _⟩

/-! ## C6: heat-pump thermal-sink exclusivity -/

/-- C6: with a binary storage-selection variable and non-negative modulation
coefficients, the BT1 and BT2 exclusivity inequalities force that a positive
space-heating coefficient makes the DHW coefficient zero and vice versa: the
heat pump serves exactly one thermal sink per slot, never both. -/
theorem heatPump_singleSink_exclusivity
    (coeffSH1 coeffDHW1 only1 coeffSH2 coeffDHW2 only2 : ℚ)
    (hbin1 : only1 = 0 ∨ only1 = 1) (hbin2 : only2 = 0 ∨ only2 = 1)
    (hSH1 : 0 ≤ coeffSH1) (hDHW1 : 0 ≤ coeffDHW1)
    (hSH2 : 0 ≤ coeffSH2) (hDHW2 : 0 ≤ coeffDHW2)
    (h11 : onlyOneStorageRule_1_BT1 coeffSH1 only1)
    (h21 : onlyOneStorageRule_2_BT1 coeffDHW1 only1)
    (h12 : onlyOneStorageRule_1_BT2 coeffSH2 only2)
    (h22 : onlyOneStorageRule_2_BT2 coeffDHW2 only2) :
    ((0 < coeffSH1 → coeffDHW1 = 0) ∧ (0 < coeffDHW1 → coeffSH1 = 0)) ∧
    ((0 < coeffSH2 → coeffDHW2 = 0) ∧ (0 < coeffDHW2 → coeffSH2 = 0)) := by
  unfold onlyOneStorageRule_1_BT1 at h11
  unfold onlyOneStorageRule_2_BT1 at h21
  unfold onlyOneStorageRule_1_BT2 at h12
  unfold onlyOneStorageRule_2_BT2 at h22
  constructor
  · rcases hbin1 with h | h <;> subst h
    · exact ⟨fun hp => by linarith, fun _ => by linarith⟩
    · exact ⟨fun _ => by linarith, fun hp => by linarith⟩
  · rcases hbin2 with h | h <;> subst h
    · exact ⟨fun hp => by linarith, fun _ => by linarith⟩
    · exact ⟨fun _ => by linarith, fun hp => by linarith⟩

/-- Closed instantiation of the exclusivity theorem: a BT1 building heating
the buffer storage at half modulation and a BT2 building heating the DHW tank
at full modulation. -/
theorem heatPump_singleSink_exclusivity_witness :
    ((0 < (1 / 2 : ℚ) → (0 : ℚ) = 0) ∧ ((0 : ℚ) < 0 → (1 / 2 : ℚ) = 0)) ∧
    ((0 < (0 : ℚ) → (1 : ℚ) = 0) ∧ ((0 : ℚ) < 1 → (0 : ℚ) = 0)) :=
  heatPump_singleSink_exclusivity (1 / 2) 0 1 0 1 0
    (Or.inr rfl) (Or.inl rfl)
    (by norm_num) (le_refl 0) (le_refl 0) (by norm_num)
    (by unfold onlyOneStorageRule_1_BT1; norm_num)
    (by unfold onlyOneStorageRule_2_BT1; norm_num)
    (by unfold onlyOneStorageRule_1_BT2; norm_num)
    (by unfold onlyOneStorageRule_2_BT2; norm_num)

/-! ## C4: surplus-power sign split -/

/-- C4 counterexample: a feasible per-slot assignment with zero surplus
(positive part 0, negative part 0, indicator 1, big-M 1000) satisfies every
constraint of the split, yet neither part is non-zero, refuting the claim
that exactly one part is non-zero in every feasible solution. -/
theorem surplusParts_exactlyOne_counterexample :
    surplusPowerPartsRule 0 0 0 ∧
    surplusPowerPositiveRule 0 1 1000 ∧
    surplusPowerNegativeRule 0 1 1000 ∧
    ((1 : ℚ) = 0 ∨ (1 : ℚ) = 1) ∧ (0 : ℚ) ≤ 0 ∧ (0 : ℚ) ≤ 0 ∧
    ¬ exactlyOneNonZero 0 0 := by
  unfold surplusPowerPartsRule surplusPowerPositiveRule surplusPowerNegativeRule exactlyOneNonZero
  norm_num

/-- C4 amended: in every feasible assignment of the big-M split, at most one
of the two surplus parts is non-zero; exactly one is non-zero precisely when
the signed surplus power is non-zero, and both vanish when it is zero. -/
theorem surplusParts_mutualExclusion
    (surplusPowerTotal posPart negPart isPos bigMpos bigMneg : ℚ)
    (hbin : isPos = 0 ∨ isPos = 1) (hpos : 0 ≤ posPart) (hneg : 0 ≤ negPart)
    (hparts : surplusPowerPartsRule surplusPowerTotal posPart negPart)
    (hposR : surplusPowerPositiveRule posPart isPos bigMpos)
    (hnegR : surplusPowerNegativeRule negPart isPos bigMneg) :
    ¬ (posPart ≠ 0 ∧ negPart ≠ 0) ∧
    (surplusPowerTotal ≠ 0 → exactlyOneNonZero posPart negPart) ∧
    (surplusPowerTotal = 0 → posPart = 0 ∧ negPart = 0) := by
  unfold surplusPowerPartsRule at hparts
  unfold surplusPowerPositiveRule at hposR
  unfold surplusPowerNegativeRule at hnegR
  unfold exactlyOneNonZero
  rcases hbin with h | h <;> subst h
  · have hp0 : posPart = 0 := le_antisymm (by linarith) hpos
    subst hp0
    refine ⟨fun hc => hc.1 rfl, fun hs => Or.inr ⟨rfl, fun hn => hs (by linarith)⟩,
      fun hs => ⟨rfl, by linarith⟩⟩
  · have hn0 : negPart = 0 := le_antisymm (by linarith) hneg
    subst hn0
    refine ⟨fun hc => hc.2 rfl, fun hs => Or.inl ⟨fun hp => hs (by linarith), rfl⟩,
      fun hs => ⟨by linarith, rfl⟩⟩

/-- Closed instantiation of the mutual-exclusion theorem at a deficit slot
(surplus −5, negative part 5, indicator 0). -/
theorem surplusParts_mutualExclusion_witness :
    ¬ ((0 : ℚ) ≠ 0 ∧ (5 : ℚ) ≠ 0) ∧
    ((-5 : ℚ) ≠ 0 → exactlyOneNonZero 0 5) ∧
    ((-5 : ℚ) = 0 → (0 : ℚ) = 0 ∧ (5 : ℚ) = 0) :=
  surplusParts_mutualExclusion (-5) 0 5 0 1000 1000
    (Or.inl rfl) (le_refl 0) (by norm_num)
    (by unfold surplusPowerPartsRule; norm_num)
    (by unfold surplusPowerPositiveRule; norm_num)
    (by unfold surplusPowerNegativeRule; norm_num)

/-! ## C8: per-slot cost and revenue gating -/

/-- C8: with a binary surplus indicator, the cost and revenue equations are
gated by the same indicator: cost accrues only on the deficit branch at the
spot price, revenue only on the surplus branch at the feed-in tariff, and at
most one of the two is non-zero in any timeslot. -/
theorem costRevenue_indicator_gating (p : ScenarioParams)
    (electricityPrice elecTotal pvTotal isPos costs revenue : ℚ)
    (hbin : isPos = 0 ∨ isPos = 1)
    (hc : costsPerTimeSlotRule p electricityPrice elecTotal pvTotal isPos costs)
    (hr : revenuePerTimeSlotRule p elecTotal pvTotal isPos revenue) :
    (isPos = 0 →
      costs = (elecTotal - pvTotal) * p.timeResolution_InMinutes * 60 *
        (electricityPrice / 3600000) ∧ revenue = 0) ∧
    (isPos = 1 →
      revenue = (pvTotal - elecTotal) * p.timeResolution_InMinutes * 60 *
        (p.revenueForFeedingBackElecticityIntoTheGrid_CentsPerkWh / 3600000) ∧ costs = 0) ∧
    (costs = 0 ∨ revenue = 0) := by
  unfold costsPerTimeSlotRule at hc
  unfold revenuePerTimeSlotRule at hr
  rcases hbin with h | h <;> subst h
  · refine ⟨fun _ => ⟨by rw [hc]; ring, by rw [hr]; ring⟩, fun hcon => absurd hcon (by norm_num),
      Or.inr (by rw [hr]; ring)⟩
  · refine ⟨fun hcon => absurd hcon (by norm_num), fun _ => ⟨by rw [hr]; ring, by rw [hc]; ring⟩,
      Or.inl (by rw [hc]; ring)⟩

/-- Closed instantiation of the gating theorem at a surplus slot (indicator 1,
generation 2000 W, load 500 W, feed-in tariff from the concrete scenario). -/
theorem costRevenue_indicator_gating_witness :
    ((1 : ℚ) = 0 →
      (0 : ℚ) = ((500 : ℚ) - 2000) * exParams.timeResolution_InMinutes * 60 *
        (30 / 3600000) ∧ (1 : ℚ) / 5 = 0) ∧
    ((1 : ℚ) = 1 →
      (1 : ℚ) / 5 = ((2000 : ℚ) - 500) * exParams.timeResolution_InMinutes * 60 *
        (exParams.revenueForFeedingBackElecticityIntoTheGrid_CentsPerkWh / 3600000) ∧
      (0 : ℚ) = 0) ∧
    ((0 : ℚ) = 0 ∨ (1 : ℚ) / 5 = 0) :=
  costRevenue_indicator_gating exParams 30 500 2000 1 0 (1 / 5)
    (Or.inr rfl)
    (by unfold costsPerTimeSlotRule; norm_num [exParams])
    (by unfold revenuePerTimeSlotRule; norm_num [exParams])

/-! ## C2: battery energy-level difference equation -/

/-- Concrete battery charging schedule: never charging. -/
def exChargeBAT : ℕ → ℚ := fun _ => 0

/-- Concrete battery discharging schedule: constant 8 W. -/
def exDischargeBAT : ℕ → ℚ := fun _ => 8

/-- Battery energy level that satisfies the source rule on the concrete
schedule: the initial level 3600 J drops by 960 J in slot 1 (discharge divided
by the charging efficiency 1/2) and by 600 J in slot 2 (discharge divided by
the discharging efficiency 4/5). -/
def exEnergyBAT : ℕ → ℚ := fun t => if t = 1 then 2640 else 2040

/-- C2: at the first timeslot the source battery rule divides the discharging
power by `chargingEfficiency_BAT`, not by `dischargingEfficiency_BAT`: on the
concrete schedule the source rule holds at `t = 1` while the specified rule
(discharging efficiency in every timeslot) fails there, and the two rules
coincide at `t = 2`. -/
theorem energyLevelOfBAT_firstSlot_efficiency_divergence :
    energyLevelOfBATRule_BT5 exParams exChargeBAT exDischargeBAT exEnergyBAT 1 ∧
    ¬ energyLevelOfBATRule_BT5_specEfficiency exParams exChargeBAT exDischargeBAT exEnergyBAT 1 ∧
    (energyLevelOfBATRule_BT5 exParams exChargeBAT exDischargeBAT exEnergyBAT 2 ↔
      energyLevelOfBATRule_BT5_specEfficiency exParams exChargeBAT exDischargeBAT exEnergyBAT 2) := by
  unfold energyLevelOfBATRule_BT5 energyLevelOfBATRule_BT5_specEfficiency
  norm_num [exParams, exChargeBAT, exDischargeBAT, exEnergyBAT]

/-! ## C1: combined objective composition -/

/-- Dual-objective configuration selecting peak load and costs, with cost
normalization constant 2 and surplus-energy normalization constant 5. -/
def rsPeakCost : RunSimulationsConfig :=
  { optimization_1Objective := false
    optimization_2Objective := true
    optimization_3Objectives := false
    optimizationGoal_minimizeSurplusEnergy := false
    optimizationGoal_minimizePeakLoad := true
    optimizationGoal_minimizeCosts := true
    objective_minimizePeakLoad_weight := 1
    objective_minimizeCosts_weight := 1
    objective_minimizeSurplusEnergy_weight := 1
    objective_minimizePeakLoad_normalizationValue := 1
    objective_minimizeCosts_normalizationValue := 2
    objective_minimizeSurplusEnergy_normalizationValue := 5 }

/-- Triple-objective configuration with the same weights and normalization
constants as `rsPeakCost`. -/
def rsTriple : RunSimulationsConfig :=
  { optimization_1Objective := false
    optimization_2Objective := false
    optimization_3Objectives := true
    optimizationGoal_minimizeSurplusEnergy := true
    optimizationGoal_minimizePeakLoad := true
    optimizationGoal_minimizeCosts := true
    objective_minimizePeakLoad_weight := 1
    objective_minimizeCosts_weight := 1
    objective_minimizeSurplusEnergy_weight := 1
    objective_minimizePeakLoad_normalizationValue := 1
    objective_minimizeCosts_normalizationValue := 2
    objective_minimizeSurplusEnergy_normalizationValue := 5 }

/-- Single-objective configuration minimizing costs only. -/
def rsCostsOnly : RunSimulationsConfig :=
  { optimization_1Objective := true
    optimization_2Objective := false
    optimization_3Objectives := false
    optimizationGoal_minimizeSurplusEnergy := false
    optimizationGoal_minimizePeakLoad := false
    optimizationGoal_minimizeCosts := true
    objective_minimizePeakLoad_weight := 1
    objective_minimizeCosts_weight := 1
    objective_minimizeSurplusEnergy_weight := 1
    objective_minimizePeakLoad_normalizationValue := 1
    objective_minimizeCosts_normalizationValue := 2
    objective_minimizeSurplusEnergy_normalizationValue := 5 }

/-- C1: with peak load 0 and raw cost 10, the source objective divides the
cost term by the surplus-energy normalization constant (value 5, combined
scalar 2) in the peak-load/cost dual mode and in the triple mode, whereas the
specified composition divides it by the cost normalization constant (value 2,
combined scalar 5).  In single-objective cost mode the source returns the raw
cost term exactly, as specified. -/
theorem objective_costNormalization_divergence :
    objectiveRule_combined_general rsPeakCost exParams 0 0 10 = some 2 ∧
    objectiveRule_combined_specNormalization rsPeakCost exParams 0 0 10 = some 5 ∧
    objectiveRule_combined_general rsTriple exParams 0 0 10 = some 2 ∧
    objectiveRule_combined_specNormalization rsTriple exParams 0 0 10 = some 5 ∧
    some (2 : ℚ) ≠ some (5 : ℚ) ∧
    objectiveRule_combined_general rsCostsOnly exParams 0 0 10 = some 10 ∧
    objectiveRule_combined_specNormalization rsCostsOnly exParams 0 0 10 = some 10 := by
  refine ⟨?_, ?_, ?_, ?_, by simp, ?_, ?_⟩ <;>
    norm_num [objectiveRule_combined_general, objectiveRule_combined_specNormalization,
      rsPeakCost, rsTriple, rsCostsOnly, exParams]

/-! ## C7: terminal deviation bands -/

/-- C7 counterexample: for the concrete scenario (initial EV SOC 50 %,
deviation constant 10, capacity 3600 J) the lower and upper deviations of the
EV terminal band derived from the source constraints are both 360 J — the
band is symmetric, so the claimed distinct lower/upper allowed deviations do
not exist. -/
theorem evTerminalBand_symmetry_counterexample :
    evTerminalLowerDeviation exParams = evTerminalUpperDeviation exParams ∧
    evTerminalLowerDeviation exParams = 360 ∧
    ¬ (evTerminalLowerDeviation exParams ≠ evTerminalUpperDeviation exParams) := by
  unfold evTerminalLowerDeviation evTerminalUpperDeviation evInitialEnergyLevel
  norm_num [exParams]

/-- C7 amended: every feasible terminal EV and battery energy level lies
within the configured deviation band of its initial value; the EV band is
symmetric — the same deviation constant on both sides — while the battery
band is asymmetric, with distinct lower- and upper-limit constants. -/
theorem terminalDeviationBands (p : ScenarioParams) (lastEV lastBAT : ℚ)
    (h1 : constraint_energyLevelOfEV_lastLowerLimitRule_BT1 p lastEV)
    (h2 : constraint_energyLevelOfEV_lastUpperLimitRule_BT1 p lastEV)
    (h3 : constraint_energyLevelOfBAT_lastLowerLimitRule_BT5 p lastBAT)
    (h4 : constraint_energyLevelOfBAT_lastUpperLimitRule_BT5 p lastBAT) :
    (evInitialEnergyLevel p - evTerminalLowerDeviation p ≤ lastEV ∧
      lastEV ≤ evInitialEnergyLevel p + evTerminalUpperDeviation p ∧
      evTerminalLowerDeviation p = evTerminalUpperDeviation p ∧
      evTerminalLowerDeviation p =
        (p.endSOC_EVAllowedDeviationFromInitalValue / 100) * p.capacityMaximal_EV) ∧
    (batInitialEnergyLevel p - batTerminalLowerDeviation p ≤ lastBAT ∧
      lastBAT ≤ batInitialEnergyLevel p + batTerminalUpperDeviation p ∧
      batTerminalLowerDeviation p =
        (p.endSOC_BATAllowedDeviationFromInitalValueLowerLimit / 100) * p.capacityMaximal_BAT ∧
      batTerminalUpperDeviation p =
        (p.endSOC_BATAllowedDeviationFromInitalValueUpperLimit / 100) * p.capacityMaximal_BAT) := by
  unfold constraint_energyLevelOfEV_lastLowerLimitRule_BT1 at h1
  unfold constraint_energyLevelOfEV_lastUpperLimitRule_BT1 at h2
  unfold constraint_energyLevelOfBAT_lastLowerLimitRule_BT5 at h3
  unfold constraint_energyLevelOfBAT_lastUpperLimitRule_BT5 at h4
  simp only [evTerminalLowerDeviation, evTerminalUpperDeviation, batTerminalLowerDeviation,
    batTerminalUpperDeviation, evInitialEnergyLevel, batInitialEnergyLevel]
  refine ⟨⟨by linarith, by linarith, by ring, by ring⟩, ⟨by linarith, by linarith, by ring, by ring⟩⟩

/-- Closed instantiation of the terminal-band theorem: EV ends at its initial
level 1800 J, the battery at its initial level 3600 J, in the concrete
scenario. -/
theorem terminalDeviationBands_witness :
    (evInitialEnergyLevel exParams - evTerminalLowerDeviation exParams ≤ (1800 : ℚ) ∧
      (1800 : ℚ) ≤ evInitialEnergyLevel exParams + evTerminalUpperDeviation exParams ∧
      evTerminalLowerDeviation exParams = evTerminalUpperDeviation exParams ∧
      evTerminalLowerDeviation exParams =
        (exParams.endSOC_EVAllowedDeviationFromInitalValue / 100) * exParams.capacityMaximal_EV) ∧
    (batInitialEnergyLevel exParams - batTerminalLowerDeviation exParams ≤ (3600 : ℚ) ∧
      (3600 : ℚ) ≤ batInitialEnergyLevel exParams + batTerminalUpperDeviation exParams ∧
      batTerminalLowerDeviation exParams =
        (exParams.endSOC_BATAllowedDeviationFromInitalValueLowerLimit / 100) *
          exParams.capacityMaximal_BAT ∧
      batTerminalUpperDeviation exParams =
        (exParams.endSOC_BATAllowedDeviationFromInitalValueUpperLimit / 100) *
          exParams.capacityMaximal_BAT) :=
  terminalDeviationBands exParams 1800 3600
    (by unfold constraint_energyLevelOfEV_lastLowerLimitRule_BT1; norm_num [exParams])
    (by unfold constraint_energyLevelOfEV_lastUpperLimitRule_BT1; norm_num [exParams])
    (by unfold constraint_energyLevelOfBAT_lastLowerLimitRule_BT5; norm_num [exParams])
    (by unfold constraint_energyLevelOfBAT_lastUpperLimitRule_BT5; norm_num [exParams])

/-! ## C10: no partial results on solver failure -/

/-- C10: whenever the solve terminates as infeasible, or the solver outcome is
anything other than the accepted combinations of source line 1744 (status `ok`
with condition `optimal`, or the time limit reached with an incumbent), every
one of the nine returned output vectors is the empty array and no per-building
result records are produced. -/
theorem optimizeOneWeek_noPartialResults_onFailure (st : SolverStatus)
    (tc : TerminationCondition) (nBT1 nBT2 nBT3 nBT4 nBT5 : ℕ) (solved : OutputVectors)
    (records : List (List ℚ))
    (h : tc = TerminationCondition.infeasible ∨ solveWasAccepted st tc = false) :
    optimizeOneWeekReturnedVectors st tc nBT1 nBT2 nBT3 nBT4 nBT5 solved = emptyOutputVectors ∧
    perBuildingResultRecords st tc records = [] := by
  have hfail : solveWasAccepted st tc = false := by
    rcases h with h | h
    · subst h; cases st <;> rfl
    · exact h
  unfold optimizeOneWeekReturnedVectors perBuildingResultRecords
  rw [hfail]
  simp

/-- A solved-vector bundle with non-empty entries for every building type. -/
def exSolvedVectors : OutputVectors :=
  { heatGenerationCoefficientSpaceHeating_BT1 := [[1]]
    heatGenerationCoefficientDHW_BT1 := [[1]]
    chargingPowerEV_BT1 := [[1]]
    heatGenerationCoefficientSpaceHeating_BT2 := [[1]]
    heatGenerationCoefficientDHW_BT2 := [[1]]
    chargingPowerEV_BT3 := [[1]]
    heatGenerationCoefficientSpaceHeating_BT4 := [[1]]
    chargingPowerBAT_BT5 := [[1]]
    dischargingPowerBAT_BT5 := [[1]] }

/-- Closed instantiation of the no-partial-results theorem: an infeasible
solve with one building of every type and non-empty solved vectors still
returns the all-empty output bundle and no records. -/
theorem optimizeOneWeek_noPartialResults_onFailure_witness :
    optimizeOneWeekReturnedVectors SolverStatus.ok TerminationCondition.infeasible 1 1 1 1 1
        exSolvedVectors = emptyOutputVectors ∧
    perBuildingResultRecords SolverStatus.ok TerminationCondition.infeasible [[7]] = [] :=
  optimizeOneWeek_noPartialResults_onFailure SolverStatus.ok TerminationCondition.infeasible
    1 1 1 1 1 exSolvedVectors [[7]] (Or.inl rfl)

/-! ## C3: heat-pump start-count encoding -/

/-- Pointwise consequence of the three start-count inequalities for binary
variables at a non-initial slot: the counted binary is one exactly when the
running-indicator binary switches from on to off. -/
theorem switchedOff_pointwise (S A : ℕ → ℚ) (t : ℕ)
    (hS : S t = 0 ∨ S t = 1) (hA : A t = 0 ∨ A t = 1) (hA1 : A (t - 1) = 0 ∨ A (t - 1) = 1)
    (ht : 2 ≤ t)
    (h1 : maximumNumberOfStarts_Individual_SpaceHeating_EQ1_Rule_BT1 true S A t)
    (h2 : maximumNumberOfStarts_Individual_SpaceHeating_EQ2_Rule_BT1 true S A t)
    (h22 : maximumNumberOfStarts_Individual_SpaceHeating_EQ2_2_Rule_BT1 true S A t) :
    S t = if A (t - 1) = 1 ∧ A t = 0 then 1 else 0 := by
  have hne : ¬ (t = 1) := by omega
  have h1q : S t ≤ A (t - 1) := by
    simpa [maximumNumberOfStarts_Individual_SpaceHeating_EQ1_Rule_BT1, hne] using h1
  have h2q : A t + S t ≤ 1 := by
    simpa [maximumNumberOfStarts_Individual_SpaceHeating_EQ2_Rule_BT1] using h2
  have h22q : A (t - 1) ≤ A t + S t := by
    simpa [maximumNumberOfStarts_Individual_SpaceHeating_EQ2_2_Rule_BT1, hne] using h22
  rcases hA1 with ha1 | ha1
  · rw [ha1] at h1q
    have hs0 : S t = 0 := by
      rcases hS with hs | hs
      · exact hs
      · linarith
    rw [hs0, ha1]
    norm_num
  · rcases hA with ha | ha
    · rw [ha1, ha] at h22q
      have hs1 : S t = 1 := by
        rcases hS with hs | hs
        · exfalso
          rw [hs] at h22q
          norm_num at h22q
        · exact hs
      rw [hs1, ha1, ha]
      norm_num
    · rw [ha] at h2q
      have hs0 : S t = 0 := by
        rcases hS with hs | hs
        · exact hs
        · linarith
      rw [hs0, ha]
      norm_num

/-- C3 amended: for binary assignments satisfying the active start-count
constraint system, the sum of the counted binaries over the week equals the
number of 1→0 transitions of the running indicator over slots `2..T` — the
encoding counts switch-off events, exactly as the variable name
`HPswitchedOff` says — and the EQ5 cap bounds that transition count by the
configured maximum, capping cycling. -/
theorem switchedOff_count_characterization (T : ℕ) (S A : ℕ → ℚ) (maxStarts : ℚ)
    (hS : ∀ t, S t = 0 ∨ S t = 1) (hA : ∀ t, A t = 0 ∨ A t = 1)
    (h1 : ∀ t ∈ Finset.Icc 1 T,
      maximumNumberOfStarts_Individual_SpaceHeating_EQ1_Rule_BT1 true S A t)
    (h2 : ∀ t ∈ Finset.Icc 1 T,
      maximumNumberOfStarts_Individual_SpaceHeating_EQ2_Rule_BT1 true S A t)
    (h22 : ∀ t ∈ Finset.Icc 1 T,
      maximumNumberOfStarts_Individual_SpaceHeating_EQ2_2_Rule_BT1 true S A t)
    (h5 : maximumNumberOfStarts_Individual_SpaceHeating_EQ5_NumberOfStarts_Rule_BT1 true S T
      maxStarts) :
    sumSwitchedOff S T = (numberOfSwitchOffTransitions A T : ℚ) ∧
    (numberOfSwitchOffTransitions A T : ℚ) ≤ maxStarts := by
  have h5q : sumSwitchedOff S T ≤ maxStarts := by
    simpa [maximumNumberOfStarts_Individual_SpaceHeating_EQ5_NumberOfStarts_Rule_BT1] using h5
  have hpt : ∀ t ∈ Finset.Icc 1 T,
      S t = if 2 ≤ t ∧ A (t - 1) = 1 ∧ A t = 0 then (1 : ℚ) else 0 := by
    intro t ht
    rcases Nat.lt_or_ge t 2 with h2t | h2t
    · have ht1 : t = 1 := by
        rw [Finset.mem_Icc] at ht
        omega
      subst ht1
      have hz := h1 1 ht
      simp [maximumNumberOfStarts_Individual_SpaceHeating_EQ1_Rule_BT1] at hz
      rw [hz]
      norm_num
    · have hchar := switchedOff_pointwise S A t (hS t) (hA t) (hA (t - 1)) h2t
        (h1 t ht) (h2 t ht) (h22 t ht)
      rw [hchar]
      simp [h2t]
  have hfe : (Finset.Icc 1 T).filter (fun t => 2 ≤ t ∧ A (t - 1) = 1 ∧ A t = 0)
      = (Finset.Icc 2 T).filter (fun t => A (t - 1) = 1 ∧ A t = 0) := by
    ext t
    simp only [Finset.mem_filter, Finset.mem_Icc]
    constructor
    · rintro ⟨⟨hta, htb⟩, htc, htd⟩
      exact ⟨⟨htc, htb⟩, htd⟩
    · rintro ⟨⟨htc, htb⟩, htd⟩
      exact ⟨⟨by omega, htb⟩, htc, htd⟩
  have hsum : sumSwitchedOff S T = (numberOfSwitchOffTransitions A T : ℚ) := by
    unfold sumSwitchedOff numberOfSwitchOffTransitions
    rw [Finset.sum_congr rfl hpt, Finset.sum_boole, hfe]
  exact ⟨hsum, hsum ▸ h5q⟩

/-- Running-indicator schedule 0,1 over a two-slot horizon: off in slot 1, on
in slot 2 (a single 0→1 start). -/
def exEverOn : ℕ → ℚ := fun t => if t = 2 then 1 else 0

/-- All-zero counted assignment. -/
def exSwitchedOff : ℕ → ℚ := fun _ => 0

/-- C3 counterexample: for the schedule off-then-on (exactly one on/off
transition, a 0→1 start at slot 2), the all-zero counted assignment satisfies
every active start-count constraint over the two-slot horizon, and its total
is 0, not 1: the encoding does not make the counted binary track 0→1
transitions, so the minimal feasible sum is below the number of
transitions. -/
theorem startCount_claim_counterexample :
    maximumNumberOfStarts_Individual_SpaceHeating_EQ1_Rule_BT1 true exSwitchedOff exEverOn 1 ∧
    maximumNumberOfStarts_Individual_SpaceHeating_EQ1_Rule_BT1 true exSwitchedOff exEverOn 2 ∧
    maximumNumberOfStarts_Individual_SpaceHeating_EQ2_Rule_BT1 true exSwitchedOff exEverOn 1 ∧
    maximumNumberOfStarts_Individual_SpaceHeating_EQ2_Rule_BT1 true exSwitchedOff exEverOn 2 ∧
    maximumNumberOfStarts_Individual_SpaceHeating_EQ2_2_Rule_BT1 true exSwitchedOff exEverOn 1 ∧
    maximumNumberOfStarts_Individual_SpaceHeating_EQ2_2_Rule_BT1 true exSwitchedOff exEverOn 2 ∧
    numberOfOnOffTransitions exEverOn 2 = 1 ∧
    sumSwitchedOff exSwitchedOff 2 = 0 ∧
    (0 : ℚ) ≠ 1 := by
  refine ⟨?_, ?_, ?_, ?_, ?_, ?_, ?_, ?_, by norm_num⟩
  · simp [maximumNumberOfStarts_Individual_SpaceHeating_EQ1_Rule_BT1, exSwitchedOff]
  · simp [maximumNumberOfStarts_Individual_SpaceHeating_EQ1_Rule_BT1, exSwitchedOff, exEverOn]
  · simp [maximumNumberOfStarts_Individual_SpaceHeating_EQ2_Rule_BT1, exSwitchedOff, exEverOn]
  · simp [maximumNumberOfStarts_Individual_SpaceHeating_EQ2_Rule_BT1, exSwitchedOff, exEverOn]
  · simp [maximumNumberOfStarts_Individual_SpaceHeating_EQ2_2_Rule_BT1, exSwitchedOff]
  · simp [maximumNumberOfStarts_Individual_SpaceHeating_EQ2_2_Rule_BT1, exSwitchedOff, exEverOn]
  · decide
  · simp [sumSwitchedOff, exSwitchedOff]

/-- Running-indicator schedule 1,0,1 over a three-slot horizon: one switch-off
at slot 2. -/
def exEverOnW : ℕ → ℚ := fun t => if t = 1 ∨ t = 3 then 1 else 0

/-- Counted assignment forced by the constraints on `exEverOnW`: one at the
switch-off slot 2, zero elsewhere. -/
def exSwitchedOffW : ℕ → ℚ := fun t => if t = 2 then 1 else 0

/-- Closed instantiation of the switch-off count characterization on the
1,0,1 schedule with cap 2. -/
theorem switchedOff_count_characterization_witness :
    sumSwitchedOff exSwitchedOffW 3 = (numberOfSwitchOffTransitions exEverOnW 3 : ℚ) ∧
    (numberOfSwitchOffTransitions exEverOnW 3 : ℚ) ≤ 2 :=
  switchedOff_count_characterization 3 exSwitchedOffW exEverOnW 2
    (fun t => by
      by_cases h : t = 2 <;> simp [exSwitchedOffW, h])
    (fun t => by
      by_cases h : t = 1 ∨ t = 3 <;> simp [exEverOnW, h])
    (by
      intro t ht
      rw [Finset.mem_Icc] at ht
      obtain ⟨ht1, ht2⟩ := ht
      interval_cases t <;>
        simp [maximumNumberOfStarts_Individual_SpaceHeating_EQ1_Rule_BT1, exSwitchedOffW,
          exEverOnW])
    (by
      intro t ht
      rw [Finset.mem_Icc] at ht
      obtain ⟨ht1, ht2⟩ := ht
      interval_cases t <;>
        simp [maximumNumberOfStarts_Individual_SpaceHeating_EQ2_Rule_BT1, exSwitchedOffW,
          exEverOnW])
    (by
      intro t ht
      rw [Finset.mem_Icc] at ht
      obtain ⟨ht1, ht2⟩ := ht
      interval_cases t <;>
        simp [maximumNumberOfStarts_Individual_SpaceHeating_EQ2_2_Rule_BT1, exSwitchedOffW,
          exEverOnW])
    (by
      simp only [maximumNumberOfStarts_Individual_SpaceHeating_EQ5_NumberOfStarts_Rule_BT1,
        if_true]
      have : sumSwitchedOff exSwitchedOffW 3 = 1 := by
        simp [sumSwitchedOff, Finset.sum_Icc_succ_top, exSwitchedOffW]
      rw [this]
      norm_num)

/-! ## C9: input-series preparation -/

/-- Attaching the timeslot index succeeds exactly when the series has the
expected length. -/
theorem setTimeslotIndex_ok_iff (T : ℕ) (s : List ℚ) :
    (∃ d, setTimeslotIndex T s = Except.ok d) ↔ s.length = T := by
  unfold setTimeslotIndex
  split
  · rename_i h
    simp [h]
  · rename_i h
    simp [h]

/-- A successful timeslot-index attachment preserves the series values. -/
theorem setTimeslotIndex_preserves (T : ℕ) (s : List ℚ) (d : List (ℕ × ℚ))
    (h : setTimeslotIndex T s = Except.ok d) : d.map Prod.snd = s := by
  unfold setTimeslotIndex at h
  split at h
  · rename_i hl
    obtain rfl : (List.range' 1 T).zip s = d := by
      cases h
      rfl
    exact List.map_snd_zip _ _ (by simp [hl])
  · cases h

/-- A failing timeslot-index attachment carries only the generic pandas
length-mismatch message. -/
theorem setTimeslotIndex_error_message (T : ℕ) (s : List ℚ) (e : String)
    (h : setTimeslotIndex T s = Except.error e) :
    e = "Length of values does not match length of index" := by
  unfold setTimeslotIndex at h
  split at h
  · cases h
  · injection h with h1
    subst h1
    rfl

/-- A failing column lookup carries only the column name, never a building
identifier. -/
theorem getColumn_error_message (df : List (String × List ℚ)) (name e : String)
    (h : getColumn df name = Except.error e) : e = name := by
  unfold getColumn at h
  split at h
  · cases h
  · injection h with h1
    subst h1
    rfl

/-- Every failing series preparation carries the generic length-mismatch
message, whichever building's series caused it. -/
theorem prepareBuildingSeries_error_message (T : ℕ) (seriesList : List (List ℚ)) :
    ∀ e, prepareBuildingSeries T seriesList = Except.error e →
      e = "Length of values does not match length of index" := by
  induction seriesList with
  | nil =>
    intro e h
    simp [prepareBuildingSeries] at h
  | cons s rest ih =>
    intro e h
    simp only [prepareBuildingSeries] at h
    cases hs : setTimeslotIndex T s with
    | error e0 =>
      rw [hs] at h
      injection h with h1
      subst h1
      exact setTimeslotIndex_error_message T s e0 hs
    | ok d =>
      rw [hs] at h
      cases hr : prepareBuildingSeries T rest with
      | error e1 =>
        rw [hr] at h
        injection h with h1
        subst h1
        exact ih e1 hr
      | ok dsr =>
        rw [hr] at h
        cases h

/-- C9 amended: the per-building series preparation succeeds exactly when
every series has the expected number of timeslots, and a successful
preparation returns every series unchanged, so nothing is ever padded or
truncated.  Rejection, however, is generic: a wrong-length series can only
produce the pandas length-mismatch message, and a missing column can only
produce a `KeyError` naming the column — neither identifies the affected
building. -/
theorem seriesPreparation_characterization (T : ℕ) (seriesList : List (List ℚ))
    (df : List (String × List ℚ)) (columnName : String) :
    ((∃ ds, prepareBuildingSeries T seriesList = Except.ok ds) ↔
      ∀ s ∈ seriesList, s.length = T) ∧
    (∀ ds, prepareBuildingSeries T seriesList = Except.ok ds →
      ds.map (fun d => d.map Prod.snd) = seriesList) ∧
    (∀ e, prepareBuildingSeries T seriesList = Except.error e →
      e = "Length of values does not match length of index") ∧
    (∀ e, getColumn df columnName = Except.error e → e = columnName) := by
  have hmain : ((∃ ds, prepareBuildingSeries T seriesList = Except.ok ds) ↔
      ∀ s ∈ seriesList, s.length = T) ∧
    (∀ ds, prepareBuildingSeries T seriesList = Except.ok ds →
      ds.map (fun d => d.map Prod.snd) = seriesList) := by
    induction seriesList with
      | nil => simp [prepareBuildingSeries]
      | cons s rest ih =>
        cases hs : setTimeslotIndex T s with
        | error e =>
          have hlen : ¬ s.length = T := by
            intro hl
            obtain ⟨d, hd⟩ := (setTimeslotIndex_ok_iff T s).mpr hl
            rw [hs] at hd
            cases hd
          constructor
          · constructor
            · rintro ⟨ds, hds⟩
              simp [prepareBuildingSeries, hs] at hds
            · intro hall
              exact absurd (hall s (by simp)) hlen
          · intro ds hds
            simp [prepareBuildingSeries, hs] at hds
        | ok d =>
          have hlen : s.length = T := (setTimeslotIndex_ok_iff T s).mp ⟨d, hs⟩
          cases hr : prepareBuildingSeries T rest with
          | error e =>
            constructor
            · constructor
              · rintro ⟨ds, hds⟩
                simp [prepareBuildingSeries, hs, hr] at hds
              · intro hall
                obtain ⟨ds, hds⟩ := ih.1.mpr (fun x hx => hall x (by simp [hx]))
                rw [hr] at hds
                cases hds
            · intro ds hds
              simp [prepareBuildingSeries, hs, hr] at hds
          | ok dsr =>
            constructor
            · constructor
              · intro _ x hx
                rcases List.mem_cons.mp hx with hx | hx
                · subst hx
                  exact hlen
                · exact ih.1.mp ⟨dsr, hr⟩ x hx
              · intro _
                exact ⟨d :: dsr, by simp [prepareBuildingSeries, hs, hr]⟩
            · intro ds hds
              simp only [prepareBuildingSeries, hs, hr] at hds
              cases hds
              simp only [List.map_cons]
              rw [setTimeslotIndex_preserves T s d hs, ih.2 dsr hr]
  exact ⟨hmain.1, hmain.2, prepareBuildingSeries_error_message T seriesList,
    fun e he => getColumn_error_message df columnName e he⟩

/-- The EV availability column name accessed at source line 166. -/
def availabilityColumnName : String := "Availability of the EV"

/-- Dataframe of a first building holding only an electricity column; the EV
availability column is missing. -/
def exDfBuilding1 : List (String × List ℚ) := [( "Electricity [W]", [1, 2, 3, 4])]

/-- Dataframe of a second building with different content, also missing the
EV availability column. -/
def exDfBuilding2 : List (String × List ℚ) := [( "PV [nominal]", [5, 6, 7, 8])]

/-- Closed instantiation of the series-preparation characterization for one
building with a correct-length series, taking the missing-column conjunct at
the first building's dataframe. -/
theorem seriesPreparation_characterization_witness :
    (∃ ds, prepareBuildingSeries 2 [[5, 6]] = Except.ok ds) ∧
    (∀ ds, prepareBuildingSeries 2 [[5, 6]] = Except.ok ds →
      ds.map (fun d => d.map Prod.snd) = [[5, 6]]) ∧
    (∀ e, getColumn exDfBuilding1 availabilityColumnName = Except.error e →
      e = availabilityColumnName) :=
  ⟨(seriesPreparation_characterization 2 [[5, 6]] exDfBuilding1 availabilityColumnName).1.mpr
      (by simp),
    (seriesPreparation_characterization 2 [[5, 6]] exDfBuilding1 availabilityColumnName).2.1,
    (seriesPreparation_characterization 2 [[5, 6]] exDfBuilding1 availabilityColumnName).2.2.2⟩

/-- C9 counterexample: with a four-slot horizon, a wrong-length series in the
first building and one in the second building produce the exact same generic
length-mismatch error, and a missing EV-availability column in either
building's dataframe produces the exact same `KeyError` payload naming only
the column — no error message carries any information identifying the
affected building, refuting the claimed descriptive rejection. -/
theorem seriesRejection_genericError_counterexample :
    prepareBuildingSeries 4 [[1, 2, 3], [1, 2, 3, 4]] =
      Except.error "Length of values does not match length of index" ∧
    prepareBuildingSeries 4 [[1, 2, 3, 4], [9, 9, 9]] =
      Except.error "Length of values does not match length of index" ∧
    prepareBuildingSeries 4 [[1, 2, 3], [1, 2, 3, 4]] =
      prepareBuildingSeries 4 [[1, 2, 3, 4], [9, 9, 9]] ∧
    getColumn exDfBuilding1 availabilityColumnName = Except.error availabilityColumnName ∧
    getColumn exDfBuilding2 availabilityColumnName = Except.error availabilityColumnName ∧
    getColumn exDfBuilding1 availabilityColumnName =
      getColumn exDfBuilding2 availabilityColumnName :=
  ⟨rfl, rfl, rfl, rfl, rfl, rfl⟩

end BuildingOpt
